import Mathlib

/-!
# Platform service of the ITM client (`itm/platforms.go`)

A shallow embedding of the Platform resource service: the two record types with
their struct tags, the five service methods `Create`, `Update`, `Get`, `Delete`
and `List`, and the path helper `getPlatformPath`.

The transport client (`s.client.get/post/put/delete`) and the error type
`UnexpectedHTTPStatusError` are declared outside `platforms.go`; the transport is
taken as a parameter, a Go pair `(resp, err)` being a pair of options.  The byte
syntax of `encoding/json` (rendering and scanning) and the text of numbers that are
not integer literals (`strconv`) are parameters as well; the mapping of
`encoding/json` between JSON values, struct fields and the values of an
`interface{}` is modelled.
-/

namespace Itm

/-! ## Go values -/

/-- Go byte slices. -/
abbrev Bytes := List UInt8

/-- The struct `UnexpectedHTTPStatusError`, with the two fields that the composite
literals of `platforms.go` set. -/
structure UnexpectedHTTPStatusError where
  Expected : Int
  Got : Int
deriving DecidableEq, Repr

/-- Values of Go's `error` interface: either a `*UnexpectedHTTPStatusError` built
by the service, or an error produced elsewhere (transport, `encoding/json`),
identified by its message. -/
inductive GoError where
  | foreign (msg : String)
  | unexpectedHTTPStatus (e : UnexpectedHTTPStatusError)
deriving DecidableEq, Repr

/-- The normalized transport response: status code and raw body. -/
structure Response where
  StatusCode : Int
  Body : Bytes
deriving DecidableEq, Repr

/-- A Go result pair `(*Response, error)`; `none` is `nil`. -/
abbrev TransportResult := Option Response × Option GoError

/-- The transport client, as far as the service uses it.  The third argument of
`post` and `put` is always `nil` in `platforms.go` and is left out. -/
structure Client where
  get : String → TransportResult
  post : String → Bytes → TransportResult
  put : String → Bytes → TransportResult
  delete : String → TransportResult

/-! ## JSON values -/

/-- A JSON number literal: an integer literal, or a literal with a fraction or an
exponent (kept as text). -/
inductive JsonNumber where
  | integer (i : Int)
  | other (lit : String)
deriving DecidableEq, Repr

/-- JSON values; an object keeps its members in document order. -/
inductive Json where
  | null
  | bool (b : Bool)
  | num (n : JsonNumber)
  | str (s : String)
  | arr (elems : List Json)
  | obj (members : List (String × Json))
deriving Repr

/-- A value held in an `interface{}`.  The dynamic types are those that
`encoding/json` decodes to (nil, `bool`, `float64`, `string`, `[]interface{}`,
`map[string]interface{}`) and two that it writes but never decodes to, `int` and
`[]string`.  A `float64` is finite and is given by its exact value; a map is given
by its members in insertion order. -/
inductive GoValue where
  | nil
  | bool (b : Bool)
  | int (i : Int)
  | float64 (x : Rat)
  | string (s : String)
  | strings (ss : List String)
  | slice (xs : List GoValue)
  | map (ms : List (String × GoValue))

/-- A value of type `map[string]interface{}`: `none` is the nil map, `some ms` the
map obtained by inserting the members `ms` in order. -/
abbrev GoMap := Option (List (String × GoValue))

/-! ## The two record types -/

/-- `PlatformOpts`: settings used to create or update a Platform. -/
structure PlatformOpts where
  Name : String
  DisplayName : String
  Category : GoMap
  RadarOpts : GoMap
  Description : String
  Enabled : Bool
  OpenMixEnabled : Bool
  IsPrivate : Bool
  OpenmixVisible : Bool
  PublicProviderArchetypeId : Int

/-- `Platform`: settings of an existing Platform. -/
structure Platform where
  Id : Int
  Name : String
  DisplayName : String
  Category : GoMap
  RadarOpts : GoMap
  Description : String
  Enabled : Bool
  OpenMixEnabled : Bool
  IsPrivate : Bool
  OpenmixVisible : Bool
  PublicProviderArchetypeId : Int

/-- The zero value of `Platform` (`var result Platform`). -/
def Platform.zero : Platform :=
  { Id := 0, Name := "", DisplayName := "", Category := none, RadarOpts := none,
    Description := "", Enabled := false, OpenMixEnabled := false, IsPrivate := false,
    OpenmixVisible := false, PublicProviderArchetypeId := 0 }

/-- `platformListTestFunc`, in Go `func(*Platform) bool`.  The function is handed
a pointer to the loop copy `current`: it yields its verdict and the value it leaves
in `current`, which is the argument itself when it does not write through the
pointer. -/
abbrev platformListTestFunc := Platform → Bool × Platform

/-! ## Struct tags and JSON keys -/

/-- The fields of `Platform`, in declaration order. -/
inductive PlatformField where
  | Id | Name | DisplayName | Category | RadarOpts | Description | Enabled
  | OpenMixEnabled | IsPrivate | OpenmixVisible | PublicProviderArchetypeId
deriving DecidableEq, Repr

/-- The fields of `PlatformOpts`, in declaration order. -/
inductive PlatformOptsField where
  | Name | DisplayName | Category | RadarOpts | Description | Enabled
  | OpenMixEnabled | IsPrivate | OpenmixVisible | PublicProviderArchetypeId
deriving DecidableEq, Repr

/-- The Go name of a field of `Platform`. -/
def PlatformField.goName : PlatformField → String
  | .Id => "Id"
  | .Name => "Name"
  | .DisplayName => "DisplayName"
  | .Category => "Category"
  | .RadarOpts => "RadarOpts"
  | .Description => "Description"
  | .Enabled => "Enabled"
  | .OpenMixEnabled => "OpenMixEnabled"
  | .IsPrivate => "IsPrivate"
  | .OpenmixVisible => "OpenmixVisible"
  | .PublicProviderArchetypeId => "PublicProviderArchetypeId"

/-- The struct tag of a field of `Platform`, as its `key:"value"` pairs
(lines 27 to 37 of `platforms.go`). -/
def PlatformField.tag : PlatformField → List (String × String)
  | .Id => [("json", "id")]
  | .Name => [("json", "name")]
  | .DisplayName => [("json", "displayName")]
  | .Category => [("json", "category")]
  | .RadarOpts => [("json", "radarConfig")]
  | .Description => [("json", "intendedUse")]
  | .Enabled => [("json", "enabled")]
  | .OpenMixEnabled => [("bool", "openmixEnabled")]
  | .IsPrivate => [("json", "privateArchetype")]
  | .OpenmixVisible => [("json", "openmixVisible")]
  | .PublicProviderArchetypeId => [("json", "publicProviderArchetypeId")]

/-- The Go name of a field of `PlatformOpts`. -/
def PlatformOptsField.goName : PlatformOptsField → String
  | .Name => "Name"
  | .DisplayName => "DisplayName"
  | .Category => "Category"
  | .RadarOpts => "RadarOpts"
  | .Description => "Description"
  | .Enabled => "Enabled"
  | .OpenMixEnabled => "OpenMixEnabled"
  | .IsPrivate => "IsPrivate"
  | .OpenmixVisible => "OpenmixVisible"
  | .PublicProviderArchetypeId => "PublicProviderArchetypeId"

/-- The struct tag of a field of `PlatformOpts` (lines 13 to 22 of
`platforms.go`). -/
def PlatformOptsField.tag : PlatformOptsField → List (String × String)
  | .Name => [("json", "name")]
  | .DisplayName => [("json", "displayName")]
  | .Category => [("json", "category")]
  | .RadarOpts => [("json", "radarConfig")]
  | .Description => [("json", "intendedUse")]
  | .Enabled => [("json", "enabled")]
  | .OpenMixEnabled => [("json", "openmixEnabled")]
  | .IsPrivate => [("json", "privateArchetype")]
  | .OpenmixVisible => [("json", "openmixVisible")]
  | .PublicProviderArchetypeId => [("json", "publicProviderArchetypeId")]

/-- The key under which `encoding/json` reads and writes a struct field: the name
part of the `json` entry of its tag (the text before the first comma) when the tag
has one and it is not empty, the Go field name otherwise.  (No tag of this file is
`-` or has an option after a comma.) -/
def jsonKey (goName : String) (tag : List (String × String)) : String :=
  match tag.lookup "json" with
  | some v =>
    let name := String.mk (v.data.takeWhile (fun ch => ch != ','))
    if name = "" then goName else name
  | none => goName

/-- The JSON key of a field of `Platform`. -/
def PlatformField.jsonName (f : PlatformField) : String := jsonKey f.goName f.tag

/-- The JSON key of a field of `PlatformOpts`. -/
def PlatformOptsField.jsonName (f : PlatformOptsField) : String := jsonKey f.goName f.tag

/-- All fields of `Platform`, in declaration order. -/
def PlatformField.all : List PlatformField :=
  [.Id, .Name, .DisplayName, .Category, .RadarOpts, .Description, .Enabled,
   .OpenMixEnabled, .IsPrivate, .OpenmixVisible, .PublicProviderArchetypeId]

/-- All fields of `PlatformOpts`, in declaration order. -/
def PlatformOptsField.all : List PlatformOptsField :=
  [.Name, .DisplayName, .Category, .RadarOpts, .Description, .Enabled,
   .OpenMixEnabled, .IsPrivate, .OpenmixVisible, .PublicProviderArchetypeId]

/-! ## Decoding (`json.Unmarshal`) -/

/-- Case folding of one rune of a key, as `encoding/json` folds names: ASCII
letters go to upper case; the only other runes whose fold set holds an ASCII
letter are U+017F (long s) and U+212A (Kelvin sign). -/
def foldRune (ch : Char) : Char :=
  if 'a' ≤ ch ∧ ch ≤ 'z' then Char.ofNat (ch.toNat - 32)
  else if ch = Char.ofNat 0x17F then 'S'
  else if ch = Char.ofNat 0x212A then 'K'
  else ch

/-- The folded form of a name. -/
def foldName (s : String) : String := String.mk (s.data.map foldRune)

/-- The struct field a JSON key is stored into: the field whose JSON key is
exactly the key, else the field whose folded JSON key is the folded key, else
none (the member is skipped). -/
def findField (key : String) : Option PlatformField :=
  match PlatformField.all.find? (fun f => f.jsonName == key) with
  | some f => some f
  | none => PlatformField.all.find? (fun f => foldName f.jsonName == foldName key)

/-- The functions of `encoding/json` and `strconv` that work on text: `json.Marshal`
of the options pointer (`none` is a nil pointer); the scanner, which yields the JSON
value of a byte slice or nothing when the bytes are not valid JSON;
`strconv.ParseFloat` on a number literal that is not an integer literal, which
yields nothing when the number is out of range; and the text that `json.Marshal`
writes for a `float64` that it does not write as an integer literal. -/
structure JsonCodec where
  marshal : Option PlatformOpts → Bytes × Option GoError
  scan : Bytes → Option Json
  parseFloat : String → Option Rat
  formatFloat : Rat → String

/-- Go's `int` is taken as 64 bits wide. -/
def inIntRange (i : Int) : Bool := decide (-(2 ^ 63) ≤ i ∧ i < 2 ^ 63)

/-- Storing a JSON value into a `string`: the new value and whether the store is a
type error.  `null` leaves the value alone. -/
def storeString (cur : String) : Json → String × Bool
  | .str s => (s, false)
  | .null => (cur, false)
  | _ => (cur, true)

/-- Storing a JSON value into a `bool`. -/
def storeBool (cur : Bool) : Json → Bool × Bool
  | .bool b => (b, false)
  | .null => (cur, false)
  | _ => (cur, true)

/-- Storing a JSON value into an `int`: only an integer literal in range. -/
def storeInt (cur : Int) : Json → Int × Bool
  | .num (.integer i) => if inIntRange i then (i, false) else (cur, true)
  | .null => (cur, false)
  | _ => (cur, true)

/-- The number of binary digits of a natural number, with fuel. -/
def bitLengthAux : Nat → Nat → Nat
  | 0, _ => 0
  | fuel + 1, n => if n = 0 then 0 else bitLengthAux fuel (n / 2) + 1

/-- The number of binary digits of a natural number. -/
def bitLength (n : Nat) : Nat := bitLengthAux n n

/-- The `float64` nearest to an integer, ties going to the even significand: the
integer itself when it has at most 53 binary digits, else its leading 53 digits
rounded. -/
def roundFloat64 (i : Int) : Int :=
  if bitLength i.natAbs ≤ 53 then i
  else
    let shift := bitLength i.natAbs - 53
    let q := i.natAbs / 2 ^ shift
    let r := i.natAbs % 2 ^ shift
    let half := 2 ^ (shift - 1)
    let q2 := if half < r ∨ (r = half ∧ q % 2 = 1) then q + 1 else q
    Int.sign i * ((q2 * 2 ^ shift : Nat) : Int)

/-- A JSON number read as a `float64` (`strconv.ParseFloat`): an integer literal
is rounded, and is out of range when the rounded value has more than 1024 binary
digits; any other literal is left to the codec. -/
def decodeNumber (codec : JsonCodec) : JsonNumber → Option Rat
  | .integer i =>
    if bitLength (roundFloat64 i).natAbs ≤ 1024 then some (roundFloat64 i : Int) else none
  | .other lit => codec.parseFloat lit

mutual
/-- A JSON value decoded into an `interface{}`: the Go value and whether an error
is recorded.  A number becomes a `float64`, never an `int`; a number out of range
leaves nil and an error. -/
def decodeValue (codec : JsonCodec) : Json → GoValue × Bool
  | .null => (.nil, false)
  | .bool b => (.bool b, false)
  | .num n =>
    match decodeNumber codec n with
    | some x => (.float64 x, false)
    | none => (.nil, true)
  | .str s => (.string s, false)
  | .arr elems => (.slice (decodeValues codec elems).1, (decodeValues codec elems).2)
  | .obj ms => (.map (decodeMembers codec ms).1, (decodeMembers codec ms).2)
/-- The elements of a JSON array decoded into a `[]interface{}`. -/
def decodeValues (codec : JsonCodec) : List Json → List GoValue × Bool
  | [] => ([], false)
  | e :: es =>
    ((decodeValue codec e).1 :: (decodeValues codec es).1,
      (decodeValue codec e).2 || (decodeValues codec es).2)
/-- The members of a JSON object decoded into a `map[string]interface{}`. -/
def decodeMembers (codec : JsonCodec) : List (String × Json) → List (String × GoValue) × Bool
  | [] => ([], false)
  | (k, e) :: ms =>
    ((k, (decodeValue codec e).1) :: (decodeMembers codec ms).1,
      (decodeValue codec e).2 || (decodeMembers codec ms).2)
end

/-- Storing a JSON value into a `map[string]interface{}`: the members of an object
are decoded and inserted into the map (a nil map is allocated first), `null` sets
the map to nil. -/
def storeMap (codec : JsonCodec) (cur : GoMap) : Json → GoMap × Bool
  | .obj ms => (some (cur.getD [] ++ (decodeMembers codec ms).1), (decodeMembers codec ms).2)
  | .null => (none, false)
  | _ => (cur, true)

/-- Storing a JSON value into one field of a `Platform`. -/
def Platform.setField (codec : JsonCodec) (p : Platform) (f : PlatformField) (v : Json) :
    Platform × Bool :=
  match f with
  | .Id => ({ p with Id := (storeInt p.Id v).1 }, (storeInt p.Id v).2)
  | .Name => ({ p with Name := (storeString p.Name v).1 }, (storeString p.Name v).2)
  | .DisplayName =>
    ({ p with DisplayName := (storeString p.DisplayName v).1 }, (storeString p.DisplayName v).2)
  | .Category =>
    ({ p with Category := (storeMap codec p.Category v).1 }, (storeMap codec p.Category v).2)
  | .RadarOpts =>
    ({ p with RadarOpts := (storeMap codec p.RadarOpts v).1 },
      (storeMap codec p.RadarOpts v).2)
  | .Description =>
    ({ p with Description := (storeString p.Description v).1 }, (storeString p.Description v).2)
  | .Enabled => ({ p with Enabled := (storeBool p.Enabled v).1 }, (storeBool p.Enabled v).2)
  | .OpenMixEnabled =>
    ({ p with OpenMixEnabled := (storeBool p.OpenMixEnabled v).1 },
      (storeBool p.OpenMixEnabled v).2)
  | .IsPrivate => ({ p with IsPrivate := (storeBool p.IsPrivate v).1 }, (storeBool p.IsPrivate v).2)
  | .OpenmixVisible =>
    ({ p with OpenmixVisible := (storeBool p.OpenmixVisible v).1 },
      (storeBool p.OpenmixVisible v).2)
  | .PublicProviderArchetypeId =>
    ({ p with PublicProviderArchetypeId := (storeInt p.PublicProviderArchetypeId v).1 },
      (storeInt p.PublicProviderArchetypeId v).2)

/-- One member of an object decoded into a `Platform`; the flag records whether a
type error has been met so far (decoding goes on after one). -/
def decodeMember (codec : JsonCodec) (st : Platform × Bool) (m : String × Json) :
    Platform × Bool :=
  match findField m.1 with
  | none => st
  | some f => ((st.1.setField codec f m.2).1, st.2 || (st.1.setField codec f m.2).2)

/-- The members of an object decoded into a `Platform`, in document order. -/
def decodeObject (codec : JsonCodec) (ms : List (String × Json)) (p : Platform) :
    Platform × Bool :=
  ms.foldl (decodeMember codec) (p, false)

/-- A JSON value decoded into a `Platform`: an object fills the fields, `null`
does nothing, anything else is a type error. -/
def decodePlatform (codec : JsonCodec) (v : Json) (p : Platform) : Platform × Bool :=
  match v with
  | .obj ms => decodeObject codec ms p
  | .null => (p, false)
  | _ => (p, true)

/-- `json.Unmarshal(data, &p)` for a `Platform`: the value left in `p` and whether
an error is returned. -/
def unmarshalPlatform (codec : JsonCodec) (data : Bytes) (p : Platform) : Platform × Bool :=
  match codec.scan data with
  | none => (p, true)
  | some v => decodePlatform codec v p

/-- `json.Unmarshal(data, &all)` for a nil `[]Platform`: an array gives one element
for each of its values, each decoded into a zero `Platform`. -/
def unmarshalPlatforms (codec : JsonCodec) (data : Bytes) : List Platform × Bool :=
  match codec.scan data with
  | none => ([], true)
  | some (.arr elems) =>
    (elems.map (fun e => (decodePlatform codec e Platform.zero).1),
      elems.any (fun e => (decodePlatform codec e Platform.zero).2))
  | some .null => ([], false)
  | some _ => ([], true)

/-! ## Paths -/

/-- The constant `platformBasePath`. -/
def platformBasePath : String := "v2/config/platforms.json"

/-- An argument of `fmt.Sprintf`. -/
inductive FmtArg where
  | str (s : String)
  | int (i : Int)

/-- The verbs `%s` and `%d` of `fmt.Sprintf`, on the characters of the format;
any other character is copied.  (The one format of this file is `%s/%d`, with a
string and an integer argument.) -/
def sprintfChars : List Char → List FmtArg → List Char
  | [], _ => []
  | '%' :: 's' :: rest, .str s :: args => s.data ++ sprintfChars rest args
  | '%' :: 'd' :: rest, .int i :: args => (toString i).data ++ sprintfChars rest args
  | ch :: rest, args => ch :: sprintfChars rest args

/-- `fmt.Sprintf` for the verbs `%s` and `%d`. -/
def sprintf (format : String) (args : List FmtArg) : String :=
  String.mk (sprintfChars format.data args)

/-- `getPlatformPath`: the path of one Platform. -/
def getPlatformPath (id : Int) : String :=
  sprintf "%s/%d" [.str platformBasePath, .int id]

/-! ## The service -/

/-- The HTTP verbs of the transport client. -/
inductive Verb where
  | GET | POST | PUT | DELETE
deriving DecidableEq, Repr

/-- What a service method does besides returning: the calls it makes on the
transport client and the lines it writes with `log.Printf`. -/
inductive Event where
  | request (verb : Verb) (path : String) (body : Option Bytes)
  | logCreateBody (jsonOpts : Bytes)
  | logPostError (err : GoError)
  | logStatusDetails (body : Bytes)
  | logPutError (err : GoError)
deriving DecidableEq, Repr

/-- How a call ends: it returns, or it panics on reading `resp.StatusCode`
through a nil `resp`. -/
inductive Outcome (α : Type) where
  | returned (a : α)
  | nilDereference

/-- A run of a service method: its events in order and how it ends. -/
structure Run (α : Type) where
  events : List Event
  outcome : Outcome α

/-- The call `s.client.get(path)`: the request that the client is handed, and its
answer. -/
def Client.callGet (c : Client) (path : String) : List Event × TransportResult :=
  ([Event.request .GET path none], c.get path)

/-- The call `s.client.post(path, body, nil)`. -/
def Client.callPost (c : Client) (path : String) (body : Bytes) :
    List Event × TransportResult :=
  ([Event.request .POST path (some body)], c.post path body)

/-- The call `s.client.put(path, body, nil)`. -/
def Client.callPut (c : Client) (path : String) (body : Bytes) :
    List Event × TransportResult :=
  ([Event.request .PUT path (some body)], c.put path body)

/-- The call `s.client.delete(path)`. -/
def Client.callDelete (c : Client) (path : String) : List Event × TransportResult :=
  ([Event.request .DELETE path none], c.delete path)

/-- `platformServiceImpl.Create`. -/
def platformServiceImpl.Create (codec : JsonCodec) (c : Client) (opts : Option PlatformOpts) :
    Run (Option Platform × Option GoError) :=
  match codec.marshal opts with
  | (_, some err) => ⟨[], .returned (none, some err)⟩
  | (jsonOpts, none) =>
    match c.callPost platformBasePath jsonOpts with
    | (sent, (_, some err)) =>
      ⟨Event.logCreateBody jsonOpts :: sent ++ [Event.logPostError err],
        .returned (none, some err)⟩
    | (sent, (none, none)) => ⟨Event.logCreateBody jsonOpts :: sent, .nilDereference⟩
    | (sent, (some resp, none)) =>
      if 201 ≠ resp.StatusCode then
        ⟨Event.logCreateBody jsonOpts :: sent ++ [Event.logStatusDetails resp.Body],
          .returned (none,
            some (.unexpectedHTTPStatus { Expected := 201, Got := resp.StatusCode }))⟩
      else
        ⟨Event.logCreateBody jsonOpts :: sent,
          .returned (some (unmarshalPlatform codec resp.Body Platform.zero).1, none)⟩

/-- `platformServiceImpl.Update`. -/
def platformServiceImpl.Update (codec : JsonCodec) (c : Client) (id : Int)
    (opts : Option PlatformOpts) :
    Run (Option Platform × Option GoError) :=
  match codec.marshal opts with
  | (_, some err) => ⟨[], .returned (none, some err)⟩
  | (jsonOpts, none) =>
    match c.callPut (getPlatformPath id) jsonOpts with
    | (sent, (_, some err)) => ⟨sent ++ [Event.logPutError err], .returned (none, some err)⟩
    | (sent, (none, none)) => ⟨sent, .nilDereference⟩
    | (sent, (some resp, none)) =>
      if 200 ≠ resp.StatusCode then
        ⟨sent, .returned (none,
          some (.unexpectedHTTPStatus { Expected := 200, Got := resp.StatusCode }))⟩
      else
        ⟨sent, .returned (some (unmarshalPlatform codec resp.Body Platform.zero).1, none)⟩

/-- `platformServiceImpl.Get`. -/
def platformServiceImpl.Get (codec : JsonCodec) (c : Client) (id : Int) :
    Run (Option Platform × Option GoError) :=
  match c.callGet (getPlatformPath id) with
  | (sent, (_, some err)) => ⟨sent, .returned (none, some err)⟩
  | (sent, (none, none)) => ⟨sent, .nilDereference⟩
  | (sent, (some resp, none)) =>
    if 200 ≠ resp.StatusCode then
      ⟨sent, .returned (none,
        some (.unexpectedHTTPStatus { Expected := 200, Got := resp.StatusCode }))⟩
    else
      ⟨sent, .returned (some (unmarshalPlatform codec resp.Body Platform.zero).1, none)⟩

/-- `platformServiceImpl.Delete`: the status code is read before `err` is looked
at. -/
def platformServiceImpl.Delete (c : Client) (id : Int) : Run (Option GoError) :=
  match c.callDelete (getPlatformPath id) with
  | (sent, (none, _)) => ⟨sent, .nilDereference⟩
  | (sent, (some resp, err)) =>
    if 204 ≠ resp.StatusCode then
      ⟨sent,
        .returned (some (.unexpectedHTTPStatus { Expected := 204, Got := resp.StatusCode }))⟩
    else
      ⟨sent, .returned err⟩

/-- The inner loop of `List`: `stillOk` and the value of `current` after running
the tests on `&current`, leaving at the first test that fails.  Each test sees
what the tests before it have left in `current`. -/
def testLoop (tests : List platformListTestFunc) (current : Platform) (stillOk : Bool) :
    Bool × Platform :=
  match tests with
  | [] => (stillOk, current)
  | currentTest :: rest =>
    if !(currentTest current).1 then ((currentTest current).1, (currentTest current).2)
    else testLoop rest (currentTest current).2 (currentTest current).1

/-- The outer loop of `List`: `result` after ranging over `all`.  What is appended
is `current` as the tests have left it. -/
def listLoop (tests : List platformListTestFunc) (all : List Platform)
    (result : List Platform) : List Platform :=
  match all with
  | [] => result
  | current :: rest =>
    if (testLoop tests current true).1 then
      listLoop tests rest (result ++ [(testLoop tests current true).2])
    else listLoop tests rest result

/-- `platformServiceImpl.List`. -/
def platformServiceImpl.List (codec : JsonCodec) (c : Client)
    (tests : List platformListTestFunc) :
    Run (List Platform × Option GoError) :=
  match c.callGet platformBasePath with
  | (sent, (_, some err)) => ⟨sent, .returned ([], some err)⟩
  | (sent, (none, none)) => ⟨sent, .nilDereference⟩
  | (sent, (some resp, none)) =>
    ⟨sent, .returned (listLoop tests (unmarshalPlatforms codec resp.Body).1 [], none)⟩

/-! ## Encoding (`json.Marshal`) of the values of an `interface{}` -/

/-- The number literal that `json.Marshal` writes for a `float64`: an integer
literal for an integral value of magnitude below `1e21`, else text with a fraction
or an exponent, which is left to the codec. -/
def encodeFloat (codec : JsonCodec) (x : Rat) : JsonNumber :=
  if x.den = 1 ∧ x.num.natAbs < 10 ^ 21 then .integer x.num else .other (codec.formatFloat x)

mutual
/-- The JSON value that `json.Marshal` writes for a value held in an
`interface{}`. -/
def encodeValue (codec : JsonCodec) : GoValue → Json
  | .nil => .null
  | .bool b => .bool b
  | .int i => .num (.integer i)
  | .float64 x => .num (encodeFloat codec x)
  | .string s => .str s
  | .strings ss => .arr (ss.map Json.str)
  | .slice xs => .arr (encodeValues codec xs)
  | .map ms => .obj (encodeMembers codec ms)
/-- The JSON values of the elements of a `[]interface{}`. -/
def encodeValues (codec : JsonCodec) : List GoValue → List Json
  | [] => []
  | v :: vs => encodeValue codec v :: encodeValues codec vs
/-- The JSON members of the members of a `map[string]interface{}`. -/
def encodeMembers (codec : JsonCodec) : List (String × GoValue) → List (String × Json)
  | [] => []
  | (k, v) :: ms => (k, encodeValue codec v) :: encodeMembers codec ms
end

mutual
/-- Whether a value held in an `interface{}` is of the dynamic types that
`encoding/json` decodes to, throughout: no `int` and no `[]string` in it, and each
`float64` in it a number whose text, as `json.Marshal` writes it, reads back as the
same `float64`. -/
def jsonNative (codec : JsonCodec) : GoValue → Bool
  | .nil => true
  | .bool _ => true
  | .int _ => false
  | .float64 x => decide (decodeNumber codec (encodeFloat codec x) = some x)
  | .string _ => true
  | .strings _ => false
  | .slice xs => jsonNativeValues codec xs
  | .map ms => jsonNativeMembers codec ms
/-- `jsonNative` of every element. -/
def jsonNativeValues (codec : JsonCodec) : List GoValue → Bool
  | [] => true
  | v :: vs => jsonNative codec v && jsonNativeValues codec vs
/-- `jsonNative` of the value of every member. -/
def jsonNativeMembers (codec : JsonCodec) : List (String × GoValue) → Bool
  | [] => true
  | (_, v) :: ms => jsonNative codec v && jsonNativeMembers codec ms
end

/-- `jsonNative` for a `map[string]interface{}`; the nil map is. -/
def GoMap.jsonNative (codec : JsonCodec) : GoMap → Bool
  | none => true
  | some ms => jsonNativeMembers codec ms

/-- The JSON value that `json.Marshal` writes for a `map[string]interface{}`:
`null` for the nil map. -/
def GoMap.toJson (codec : JsonCodec) : GoMap → Json
  | none => .null
  | some ms => .obj (encodeMembers codec ms)

/-! ## The wire object of the field-mapping table, and concrete inputs -/

/-- The members of the JSON object that holds the fields of `o` under the wire
names of the field-mapping table, with `id` set to `n`. -/
def wireObject (codec : JsonCodec) (o : PlatformOpts) (n : Int) : List (String × Json) :=
  [("id", .num (.integer n)),
   ("name", .str o.Name),
   ("displayName", .str o.DisplayName),
   ("category", GoMap.toJson codec o.Category),
   ("radarConfig", GoMap.toJson codec o.RadarOpts),
   ("intendedUse", .str o.Description),
   ("enabled", .bool o.Enabled),
   ("openmixEnabled", .bool o.OpenMixEnabled),
   ("privateArchetype", .bool o.IsPrivate),
   ("openmixVisible", .bool o.OpenmixVisible),
   ("publicProviderArchetypeId", .num (.integer o.PublicProviderArchetypeId))]

/-- The Platform that has the fields of `o` and the identifier `n`. -/
def platformOf (o : PlatformOpts) (n : Int) : Platform :=
  { Id := n, Name := o.Name, DisplayName := o.DisplayName, Category := o.Category,
    RadarOpts := o.RadarOpts, Description := o.Description, Enabled := o.Enabled,
    OpenMixEnabled := o.OpenMixEnabled, IsPrivate := o.IsPrivate,
    OpenmixVisible := o.OpenmixVisible,
    PublicProviderArchetypeId := o.PublicProviderArchetypeId }

/-- The transport calls among the events of a run: verb and path. -/
def requests : List Event → List (Verb × String)
  | [] => []
  | .request verb path _ :: rest => (verb, path) :: requests rest
  | _ :: rest => requests rest

/-- A transport client that answers every call with the same result pair. -/
def constClient (r : TransportResult) : Client :=
  { get := fun _ => r, post := fun _ _ => r, put := fun _ _ => r, delete := fun _ => r }

/-- A transport client given by its answers: `rList` to a `get` of the collection
path, `rGet` to a `get` of any other path, and one answer for each other verb. -/
def verbClient (rList rGet rPost rPut rDelete : TransportResult) : Client :=
  { get := fun path => if path = platformBasePath then rList else rGet,
    post := fun _ _ => rPost, put := fun _ _ => rPut, delete := fun _ => rDelete }

/-- The answer of a transport with status 200 and the body `[2]`. -/
def ok200 : TransportResult := (some { StatusCode := 200, Body := [2] }, none)

/-- The answer of a transport that fails with the error `foo` and a nil response,
as the fake round tripper of the tests does. -/
def failFoo : TransportResult := (none, some (.foreign "foo"))

/-- A codec whose `Marshal` yields the given bytes and whose scanner yields the
given JSON value whatever the bytes.  It reads no number that is not an integer
literal. -/
def constCodec (out : Bytes) (v : Option Json) : JsonCodec :=
  { marshal := fun _ => (out, none), scan := fun _ => v, parseFloat := fun _ => none,
    formatFloat := fun _ => "" }

/-- A codec whose `Marshal` yields the given bytes and whose scanner reads the
bodies listed in a table and takes every other body as invalid JSON.  It reads no
number that is not an integer literal. -/
def tableCodec (out : Bytes) (table : List (Bytes × Json)) : JsonCodec :=
  { marshal := fun _ => (out, none), scan := fun body => table.lookup body,
    parseFloat := fun _ => none, formatFloat := fun _ => "" }

/-- The Platform `foo` of the tests, with identifier 123. -/
def platformFoo : Platform :=
  { Platform.zero with Id := 123, Name := "foo", DisplayName := "foo",
                       Description := "foo description" }

/-- The Platform `bar` of the tests, with identifier 456. -/
def platformBar : Platform :=
  { Platform.zero with Id := 456, Name := "bar", DisplayName := "bar",
                       Description := "bar description" }

/-- The JSON text of `platformFoo` and `platformBar` as an array of objects. -/
def fooBarJson : Json :=
  .arr [.obj [("id", .num (.integer 123)), ("name", .str "foo"), ("displayName", .str "foo"),
              ("intendedUse", .str "foo description")],
        .obj [("id", .num (.integer 456)), ("name", .str "bar"), ("displayName", .str "bar"),
              ("intendedUse", .str "bar description")]]

/-- A JSON object that does not decode as a Platform without error, its `id` being
a string, and that is not an array either. -/
def badIdJson : Json :=
  .obj [("id", .str "oops"), ("name", .str "foo")]

/-- A test that keeps the Platform with identifier 456 and writes nothing. -/
def isBar : platformListTestFunc := fun p => (p.Id == 456, p)

/-- A test that accepts every Platform and writes the name `changed` through the
pointer it is handed. -/
def renameAll : platformListTestFunc := fun p => (true, { p with Name := "changed" })

/-- The options of `TestPlatformCreate`: category `id` the `float64` 1 and radar
option `usePublicData` the `bool` true, as the test gives them, with
`OpenMixEnabled` set.  The `SonarOpts` of the test is left out: `PlatformOpts`
declares no such field. -/
def optsFoo : PlatformOpts :=
  { Name := "foo", DisplayName := "foo",
    Category := some [("id", .float64 1)],
    RadarOpts := some [("usePublicData", .bool true)],
    Description := "foo description", Enabled := false, OpenMixEnabled := true,
    IsPrivate := false, OpenmixVisible := false, PublicProviderArchetypeId := 0 }

/-- Options whose category `id` is the `int` 9007199254740993, which is 2^53 + 1. -/
def optsBig : PlatformOpts :=
  { Name := "foo", DisplayName := "foo",
    Category := some [("id", .int 9007199254740993)],
    RadarOpts := none,
    Description := "foo description", Enabled := false, OpenMixEnabled := false,
    IsPrivate := false, OpenmixVisible := false, PublicProviderArchetypeId := 0 }

/-! ## Lemmas on the loops of `List` -/

theorem testLoop_of_predicates (tests : List platformListTestFunc) (current : Platform)
    (hpred : ∀ t ∈ tests, ∀ p, (t p).2 = p) :
    testLoop tests current true = (tests.all (fun t => (t current).1), current) := by
  induction tests with
  | nil => rfl
  | cons t rest ih =>
    have ht : (t current).2 = current := hpred t (List.mem_cons_self t rest) current
    have hrest : ∀ u ∈ rest, ∀ p, (u p).2 = p :=
      fun u hu p => hpred u (List.mem_cons_of_mem t hu) p
    unfold testLoop
    cases hv : (t current).1
    · simp [hv, ht]
    · simp [hv, ht, ih hrest]

theorem listLoop_of_predicates (tests : List platformListTestFunc)
    (hpred : ∀ t ∈ tests, ∀ p, (t p).2 = p) (all result : List Platform) :
    listLoop tests all result
      = result ++ all.filter (fun p => tests.all (fun t => (t p).1)) := by
  induction all generalizing result with
  | nil => simp [listLoop]
  | cons current rest ih =>
    unfold listLoop
    rw [testLoop_of_predicates tests current hpred]
    cases hc : tests.all (fun t => (t current).1) <;> simp [hc, ih]

/-! ## C1: list filtering -/

/-- C1: when the transport `get` on the collection path succeeds, and the tests are
predicates (each leaves the Platform it is handed as it was), `List` returns, with
a nil error, the elements of the decoded collection `all` that pass every test, in
their original order; with no tests it returns `all` itself. -/
theorem list_returns_matching_sublist (codec : JsonCodec) (c : Client)
    (tests : List platformListTestFunc) (resp : Response) (all : List Platform)
    (hget : c.get platformBasePath = (some resp, none))
    (hall : (unmarshalPlatforms codec resp.Body).1 = all)
    (hpred : ∀ t ∈ tests, ∀ p, (t p).2 = p) :
    (platformServiceImpl.List codec c tests).outcome
        = .returned (all.filter (fun p => tests.all (fun t => (t p).1)), none)
      ∧ (platformServiceImpl.List codec c []).outcome = .returned (all, none) := by
  subst hall
  constructor
  · simp only [platformServiceImpl.List, Client.callGet, hget,
      listLoop_of_predicates tests hpred, List.nil_append]
  · have hnil : ∀ t ∈ ([] : List platformListTestFunc), ∀ p, (t p).2 = p :=
      fun t ht => absurd ht (List.not_mem_nil t)
    simp [platformServiceImpl.List, Client.callGet, hget, listLoop_of_predicates [] hnil]

/-- Witness of C1: on the two Platforms of `TestPlatformList`, the test "Id is 456"
keeps `bar` only, and no test keeps both, in order. -/
theorem list_returns_matching_sublist_witness :
    (platformServiceImpl.List (constCodec [] (some fooBarJson))
        (constClient (some { StatusCode := 200, Body := [] }, none))
        [isBar]).outcome = .returned ([platformBar], none)
      ∧ (platformServiceImpl.List (constCodec [] (some fooBarJson))
        (constClient (some { StatusCode := 200, Body := [] }, none)) []).outcome
          = .returned ([platformFoo, platformBar], none) :=
  list_returns_matching_sublist (constCodec [] (some fooBarJson))
    (constClient (some { StatusCode := 200, Body := [] }, none))
    [isBar] { StatusCode := 200, Body := [] } [platformFoo, platformBar]
    rfl rfl (by intro t ht p; simp only [List.mem_singleton] at ht; subst ht; rfl)

/-- Outside C1: a test that writes through the pointer is not a predicate, and
`List` then returns the copies as the test has left them, which are not elements of
the decoded collection. -/
theorem list_returns_what_a_writing_test_leaves :
    (platformServiceImpl.List (constCodec [] (some fooBarJson))
        (constClient (some { StatusCode := 200, Body := [] }, none))
        [renameAll]).outcome
      = .returned ([{ platformFoo with Name := "changed" },
                    { platformBar with Name := "changed" }], none) := by
  rfl

/-! ## C2: status mismatch on Create, Update and Get -/

/-- C2: for Create (expected 201), Update (expected 200) and Get (expected 200),
each on its own: once the transport call of the method has answered with a
response, a status code different from the expected one gives a nil resource and an
`UnexpectedHTTPStatusError` holding the expected code and the code received, and
the expected status code gives a resource and a nil error. -/
theorem status_mismatch_create_update_get (codec : JsonCodec) (c : Client) (id : Int)
    (opts : Option PlatformOpts) :
    (∀ jsonOpts resp, codec.marshal opts = (jsonOpts, none) →
      c.post platformBasePath jsonOpts = (some resp, none) →
      (resp.StatusCode ≠ 201 →
        (platformServiceImpl.Create codec c opts).outcome = .returned (none,
          some (.unexpectedHTTPStatus { Expected := 201, Got := resp.StatusCode })))
      ∧ (resp.StatusCode = 201 →
        ∃ p, (platformServiceImpl.Create codec c opts).outcome = .returned (some p, none)))
    ∧ (∀ jsonOpts resp, codec.marshal opts = (jsonOpts, none) →
      c.put (getPlatformPath id) jsonOpts = (some resp, none) →
      (resp.StatusCode ≠ 200 →
        (platformServiceImpl.Update codec c id opts).outcome = .returned (none,
          some (.unexpectedHTTPStatus { Expected := 200, Got := resp.StatusCode })))
      ∧ (resp.StatusCode = 200 →
        ∃ p, (platformServiceImpl.Update codec c id opts).outcome = .returned (some p, none)))
    ∧ (∀ resp, c.get (getPlatformPath id) = (some resp, none) →
      (resp.StatusCode ≠ 200 →
        (platformServiceImpl.Get codec c id).outcome = .returned (none,
          some (.unexpectedHTTPStatus { Expected := 200, Got := resp.StatusCode })))
      ∧ (resp.StatusCode = 200 →
        ∃ p, (platformServiceImpl.Get codec c id).outcome = .returned (some p, none))) := by
  refine ⟨?_, ?_, ?_⟩
  · intro jsonOpts resp hm hpost
    constructor
    · intro hs
      have hs2 : (201 : Int) ≠ resp.StatusCode := fun h => hs h.symm
      simp [platformServiceImpl.Create, Client.callPost, hm, hpost, hs2]
    · intro hs
      exact ⟨(unmarshalPlatform codec resp.Body Platform.zero).1,
        by simp [platformServiceImpl.Create, Client.callPost, hm, hpost, hs]⟩
  · intro jsonOpts resp hm hput
    constructor
    · intro hs
      have hs2 : (200 : Int) ≠ resp.StatusCode := fun h => hs h.symm
      simp [platformServiceImpl.Update, Client.callPut, hm, hput, hs2]
    · intro hs
      exact ⟨(unmarshalPlatform codec resp.Body Platform.zero).1,
        by simp [platformServiceImpl.Update, Client.callPut, hm, hput, hs]⟩
  · intro resp hget
    constructor
    · intro hs
      have hs2 : (200 : Int) ≠ resp.StatusCode := fun h => hs h.symm
      simp [platformServiceImpl.Get, Client.callGet, hget, hs2]
    · intro hs
      exact ⟨(unmarshalPlatform codec resp.Body Platform.zero).1,
        by simp [platformServiceImpl.Get, Client.callGet, hget, hs]⟩

/-- Witness of C2: three clients, in each of which one verb answers with status
500 and every other call fails; the method that uses that verb returns the error
with its expected code and 500. -/
theorem status_mismatch_create_update_get_witness :
    (platformServiceImpl.Create (constCodec [] none)
        (verbClient failFoo failFoo (some { StatusCode := 500, Body := [] }, none)
          failFoo failFoo) none).outcome
        = .returned (none, some (.unexpectedHTTPStatus { Expected := 201, Got := 500 }))
      ∧ (platformServiceImpl.Update (constCodec [] none)
        (verbClient failFoo failFoo failFoo (some { StatusCode := 500, Body := [] }, none)
          failFoo) 123 none).outcome
        = .returned (none, some (.unexpectedHTTPStatus { Expected := 200, Got := 500 }))
      ∧ (platformServiceImpl.Get (constCodec [] none)
        (verbClient failFoo (some { StatusCode := 500, Body := [] }, none) failFoo failFoo
          failFoo) 123).outcome
        = .returned (none, some (.unexpectedHTTPStatus { Expected := 200, Got := 500 })) :=
  ⟨((status_mismatch_create_update_get (constCodec [] none)
      (verbClient failFoo failFoo (some { StatusCode := 500, Body := [] }, none)
        failFoo failFoo) 123 none).1 [] { StatusCode := 500, Body := [] } rfl rfl).1
      (by decide),
    ((status_mismatch_create_update_get (constCodec [] none)
      (verbClient failFoo failFoo failFoo (some { StatusCode := 500, Body := [] }, none)
        failFoo) 123 none).2.1 [] { StatusCode := 500, Body := [] } rfl rfl).1
      (by decide),
    ((status_mismatch_create_update_get (constCodec [] none)
      (verbClient failFoo (some { StatusCode := 500, Body := [] }, none) failFoo failFoo
        failFoo) 123 none).2.2 { StatusCode := 500, Body := [] } (by decide)).1
      (by decide)⟩

/-! ## C3, C4: Delete -/

/-- C3: when the transport `delete` call succeeds with a response of status code
`s`, `Delete` returns a nil error if `s` is 204 and otherwise an
`UnexpectedHTTPStatusError` with `Expected` 204 and `Got` `s`. -/
theorem delete_status (c : Client) (id : Int) (resp : Response)
    (hdel : c.delete (getPlatformPath id) = (some resp, none)) :
    (resp.StatusCode = 204 → (platformServiceImpl.Delete c id).outcome = .returned none)
      ∧ (resp.StatusCode ≠ 204 →
        (platformServiceImpl.Delete c id).outcome = .returned
          (some (.unexpectedHTTPStatus { Expected := 204, Got := resp.StatusCode }))) := by
  constructor
  · intro hs
    simp [platformServiceImpl.Delete, Client.callDelete, hdel, hs]
  · intro hs
    have hs2 : (204 : Int) ≠ resp.StatusCode := fun h => hs h.symm
    simp [platformServiceImpl.Delete, Client.callDelete, hdel, hs2]

/-- Witness of C3: a 204 answer gives a nil error, a 404 answer the status
error. -/
theorem delete_status_witness :
    (platformServiceImpl.Delete
        (constClient (some { StatusCode := 204, Body := [] }, none)) 123).outcome
        = .returned none
      ∧ (platformServiceImpl.Delete
        (constClient (some { StatusCode := 404, Body := [] }, none)) 123).outcome
        = .returned (some (.unexpectedHTTPStatus { Expected := 204, Got := 404 })) :=
  ⟨(delete_status (constClient (some { StatusCode := 204, Body := [] }, none)) 123
      { StatusCode := 204, Body := [] } rfl).1 rfl,
   (delete_status (constClient (some { StatusCode := 404, Body := [] }, none)) 123
      { StatusCode := 404, Body := [] } rfl).2 (by decide)⟩

/-- C4: at the failing input, a transport `delete` that fails with a nil response
and the error `foo`, `Delete` reads the status code through the nil response and
panics; the transport error is not returned. -/
theorem delete_nil_response_panics :
    (platformServiceImpl.Delete (constClient (none, some (.foreign "foo"))) 123).outcome
        = .nilDereference
      ∧ (platformServiceImpl.Delete (constClient (none, some (.foreign "foo"))) 123).outcome
        ≠ .returned (some (.foreign "foo")) := by
  constructor
  · rfl
  · simp [platformServiceImpl.Delete, Client.callDelete, constClient]

/-! ## C5: transport errors -/

/-- C5: Create, Update, Get and List, each on its own: when the transport call of
the method fails with an error `e`, whatever stands in the response position, the
method returns a nil result together with `e` itself. -/
theorem transport_error_propagates (codec : JsonCodec) (c : Client) (id : Int)
    (opts : Option PlatformOpts) (tests : List platformListTestFunc) :
    (∀ jsonOpts r e, codec.marshal opts = (jsonOpts, none) →
      c.post platformBasePath jsonOpts = (r, some e) →
      (platformServiceImpl.Create codec c opts).outcome = .returned (none, some e))
    ∧ (∀ jsonOpts r e, codec.marshal opts = (jsonOpts, none) →
      c.put (getPlatformPath id) jsonOpts = (r, some e) →
      (platformServiceImpl.Update codec c id opts).outcome = .returned (none, some e))
    ∧ (∀ r e, c.get (getPlatformPath id) = (r, some e) →
      (platformServiceImpl.Get codec c id).outcome = .returned (none, some e))
    ∧ (∀ r e, c.get platformBasePath = (r, some e) →
      (platformServiceImpl.List codec c tests).outcome = .returned ([], some e)) := by
  refine ⟨?_, ?_, ?_, ?_⟩
  · intro jsonOpts r e hm hpost
    simp [platformServiceImpl.Create, Client.callPost, hm, hpost]
  · intro jsonOpts r e hm hput
    simp [platformServiceImpl.Update, Client.callPut, hm, hput]
  · intro r e hget
    simp [platformServiceImpl.Get, Client.callGet, hget]
  · intro r e hlist
    simp [platformServiceImpl.List, Client.callGet, hlist]

/-- Witness of C5: four clients, in each of which one call fails with the error
`foo` and a nil response while every other call answers with status 200; the method
that makes the failing call returns nil and `foo`. -/
theorem transport_error_propagates_witness :
    (platformServiceImpl.Create (constCodec [] none)
        (verbClient (some { StatusCode := 200, Body := [] }, none)
          (some { StatusCode := 200, Body := [] }, none) failFoo
          (some { StatusCode := 200, Body := [] }, none)
          (some { StatusCode := 200, Body := [] }, none)) none).outcome
        = .returned (none, some (.foreign "foo"))
      ∧ (platformServiceImpl.Update (constCodec [] none)
        (verbClient (some { StatusCode := 200, Body := [] }, none)
          (some { StatusCode := 200, Body := [] }, none)
          (some { StatusCode := 200, Body := [] }, none) failFoo
          (some { StatusCode := 200, Body := [] }, none)) 123 none).outcome
        = .returned (none, some (.foreign "foo"))
      ∧ (platformServiceImpl.Get (constCodec [] none)
        (verbClient (some { StatusCode := 200, Body := [] }, none) failFoo
          (some { StatusCode := 200, Body := [] }, none)
          (some { StatusCode := 200, Body := [] }, none)
          (some { StatusCode := 200, Body := [] }, none)) 123).outcome
        = .returned (none, some (.foreign "foo"))
      ∧ (platformServiceImpl.List (constCodec [] none)
        (verbClient failFoo (some { StatusCode := 200, Body := [] }, none)
          (some { StatusCode := 200, Body := [] }, none)
          (some { StatusCode := 200, Body := [] }, none)
          (some { StatusCode := 200, Body := [] }, none)) []).outcome
        = .returned ([], some (.foreign "foo")) :=
  ⟨(transport_error_propagates (constCodec [] none)
      (verbClient (some { StatusCode := 200, Body := [] }, none)
        (some { StatusCode := 200, Body := [] }, none) failFoo
        (some { StatusCode := 200, Body := [] }, none)
        (some { StatusCode := 200, Body := [] }, none)) 123 none []).1
      [] none (.foreign "foo") rfl rfl,
    (transport_error_propagates (constCodec [] none)
      (verbClient (some { StatusCode := 200, Body := [] }, none)
        (some { StatusCode := 200, Body := [] }, none)
        (some { StatusCode := 200, Body := [] }, none) failFoo
        (some { StatusCode := 200, Body := [] }, none)) 123 none []).2.1
      [] none (.foreign "foo") rfl rfl,
    (transport_error_propagates (constCodec [] none)
      (verbClient (some { StatusCode := 200, Body := [] }, none) failFoo
        (some { StatusCode := 200, Body := [] }, none)
        (some { StatusCode := 200, Body := [] }, none)
        (some { StatusCode := 200, Body := [] }, none)) 123 none []).2.2.1
      none (.foreign "foo") (by decide),
    (transport_error_propagates (constCodec [] none)
      (verbClient failFoo (some { StatusCode := 200, Body := [] }, none)
        (some { StatusCode := 200, Body := [] }, none)
        (some { StatusCode := 200, Body := [] }, none)
        (some { StatusCode := 200, Body := [] }, none)) 123 none []).2.2.2
      none (.foreign "foo") (by decide)⟩

/-! ## C6: List and the status code -/

/-- C6: at the failing input, a collection `get` answered with status 500 and a
body holding the two Platforms of the tests, `List` returns both Platforms with a
nil error: the status code is not looked at. -/
theorem list_ignores_status :
    (platformServiceImpl.List (constCodec [] (some fooBarJson))
        (constClient (some { StatusCode := 500, Body := [] }, none)) []).outcome
      = .returned ([platformFoo, platformBar], none) := by
  rfl

/-! ## C7: what the status error of Create holds -/

/-- C7, counterexample: two 500 answers to the `post` of Create whose bodies differ
give one and the same error value, which holds 201 and 500 only; the body is not
part of it. -/
theorem create_status_error_same_for_different_bodies :
    (platformServiceImpl.Create (constCodec [] none)
        (constClient (some { StatusCode := 500, Body := [1] }, none)) none).outcome
        = .returned (none, some (.unexpectedHTTPStatus { Expected := 201, Got := 500 }))
      ∧ (platformServiceImpl.Create (constCodec [] none)
        (constClient (some { StatusCode := 500, Body := [2] }, none)) none).outcome
        = .returned (none, some (.unexpectedHTTPStatus { Expected := 201, Got := 500 }))
      ∧ ([1] : Bytes) ≠ [2] := by
  refine ⟨rfl, rfl, by decide⟩

/-- C7, amended: for every Create call that receives a status code different from
201, the returned error holds the expected code 201 and the code received, and the
raw body is written to the log (the line written after the request is the one with
the body). -/
theorem create_status_error_logs_body (codec : JsonCodec) (c : Client)
    (opts : Option PlatformOpts) (jsonOpts : Bytes) (resp : Response)
    (hm : codec.marshal opts = (jsonOpts, none))
    (hpost : c.post platformBasePath jsonOpts = (some resp, none))
    (hs : resp.StatusCode ≠ 201) :
    (platformServiceImpl.Create codec c opts).outcome = .returned (none,
        some (.unexpectedHTTPStatus { Expected := 201, Got := resp.StatusCode }))
      ∧ (platformServiceImpl.Create codec c opts).events
        = [Event.logCreateBody jsonOpts, Event.request .POST platformBasePath (some jsonOpts),
           Event.logStatusDetails resp.Body] := by
  have hs2 : (201 : Int) ≠ resp.StatusCode := fun h => hs h.symm
  constructor <;> simp [platformServiceImpl.Create, Client.callPost, hm, hpost, hs2]

/-- Witness of the amended C7: a 500 answer with body `[1]`. -/
theorem create_status_error_logs_body_witness :
    (platformServiceImpl.Create (constCodec [7] none)
        (constClient (some { StatusCode := 500, Body := [1] }, none)) none).outcome
        = .returned (none, some (.unexpectedHTTPStatus { Expected := 201, Got := 500 }))
      ∧ (platformServiceImpl.Create (constCodec [7] none)
        (constClient (some { StatusCode := 500, Body := [1] }, none)) none).events
        = [Event.logCreateBody [7], Event.request .POST platformBasePath (some [7]),
           Event.logStatusDetails [1]] :=
  create_status_error_logs_body (constCodec [7] none)
    (constClient (some { StatusCode := 500, Body := [1] }, none)) none [7]
    { StatusCode := 500, Body := [1] } rfl rfl (by decide)

/-! ## C8: round trip for Create -/

theorem findField_wire :
    findField "id" = some .Id ∧ findField "name" = some .Name
      ∧ findField "displayName" = some .DisplayName
      ∧ findField "category" = some .Category
      ∧ findField "radarConfig" = some .RadarOpts
      ∧ findField "intendedUse" = some .Description
      ∧ findField "enabled" = some .Enabled
      ∧ findField "openmixEnabled" = some .OpenMixEnabled
      ∧ findField "privateArchetype" = some .IsPrivate
      ∧ findField "openmixVisible" = some .OpenmixVisible
      ∧ findField "publicProviderArchetypeId" = some .PublicProviderArchetypeId := by
  decide

mutual
theorem decodeValue_encodeValue (codec : JsonCodec) :
    ∀ v, jsonNative codec v = true → decodeValue codec (encodeValue codec v) = (v, false)
  | .nil, _ => by simp [encodeValue, decodeValue]
  | .bool _, _ => by simp [encodeValue, decodeValue]
  | .int _, h => by simp [jsonNative] at h
  | .float64 x, h => by
    simp only [jsonNative, decide_eq_true_eq] at h
    simp [encodeValue, decodeValue, h]
  | .string _, _ => by simp [encodeValue, decodeValue]
  | .strings _, h => by simp [jsonNative] at h
  | .slice xs, h => by
    simp only [jsonNative] at h
    simp [encodeValue, decodeValue, decodeValues_encodeValues codec xs h]
  | .map ms, h => by
    simp only [jsonNative] at h
    simp [encodeValue, decodeValue, decodeMembers_encodeMembers codec ms h]
theorem decodeValues_encodeValues (codec : JsonCodec) :
    ∀ xs, jsonNativeValues codec xs = true →
      decodeValues codec (encodeValues codec xs) = (xs, false)
  | [], _ => by simp [encodeValues, decodeValues]
  | v :: vs, h => by
    simp only [jsonNativeValues, Bool.and_eq_true] at h
    simp [encodeValues, decodeValues, decodeValue_encodeValue codec v h.1,
      decodeValues_encodeValues codec vs h.2]
theorem decodeMembers_encodeMembers (codec : JsonCodec) :
    ∀ ms, jsonNativeMembers codec ms = true →
      decodeMembers codec (encodeMembers codec ms) = (ms, false)
  | [], _ => by simp [encodeMembers, decodeMembers]
  | (k, v) :: ms, h => by
    simp only [jsonNativeMembers, Bool.and_eq_true] at h
    simp [encodeMembers, decodeMembers, decodeValue_encodeValue codec v h.1,
      decodeMembers_encodeMembers codec ms h.2]
end

theorem storeMap_nil_toJson (codec : JsonCodec) (m : GoMap)
    (h : GoMap.jsonNative codec m = true) :
    storeMap codec none (GoMap.toJson codec m) = (m, false) := by
  cases m with
  | none => rfl
  | some ms =>
    simp only [GoMap.jsonNative] at h
    simp [storeMap, GoMap.toJson, decodeMembers_encodeMembers codec ms h]

theorem decodeMember_wire_comm (codec : JsonCodec) (o : PlatformOpts) (n : Int) :
    ∀ x ∈ wireObject codec o n, ∀ y ∈ wireObject codec o n, ∀ z : Platform × Bool,
      decodeMember codec (decodeMember codec z x) y
        = decodeMember codec (decodeMember codec z y) x := by
  obtain ⟨h1, h2, h3, h4, h5, h6, h7, h8, h9, h10, h11⟩ := findField_wire
  intro x hx y hy z
  simp only [wireObject, List.mem_cons, List.mem_singleton, List.not_mem_nil, or_false] at hx hy
  rcases hx with rfl | rfl | rfl | rfl | rfl | rfl | rfl | rfl | rfl | rfl | rfl <;>
    rcases hy with rfl | rfl | rfl | rfl | rfl | rfl | rfl | rfl | rfl | rfl | rfl <;>
    simp [decodeMember, h1, h2, h3, h4, h5, h6, h7, h8, h9, h10, h11, Platform.setField,
      storeString, storeBool, Bool.or_comm, Bool.or_assoc, Bool.or_left_comm]

theorem decodeObject_wireObject (codec : JsonCodec) (o : PlatformOpts) (n : Int)
    (hn : inIntRange n = true) (hid : inIntRange o.PublicProviderArchetypeId = true)
    (hcat : GoMap.jsonNative codec o.Category = true)
    (hrad : GoMap.jsonNative codec o.RadarOpts = true) :
    decodeObject codec (wireObject codec o n) Platform.zero = (platformOf o n, false) := by
  obtain ⟨h1, h2, h3, h4, h5, h6, h7, h8, h9, h10, h11⟩ := findField_wire
  simp [decodeObject, wireObject, decodeMember, h1, h2, h3, h4, h5, h6, h7, h8, h9, h10, h11,
    Platform.setField, storeString, storeBool, storeInt, hn, hid,
    storeMap_nil_toJson codec o.Category hcat, storeMap_nil_toJson codec o.RadarOpts hrad,
    Platform.zero, platformOf]

/-- C8, counterexample: the options `optsBig`, whose category holds the `int`
2^53 + 1 under `id`, and the identifier 123.  The `post` is answered with status
201 and the JSON object that holds the fields of `optsBig` and `id` 123; Create
returns a nil error and a Platform whose category holds the `float64`
9007199254740992 under `id`, which is not the category of `optsBig`. -/
theorem create_round_trip_fails_for_int_in_map :
    (platformServiceImpl.Create
        (constCodec [] (some (.obj (wireObject (constCodec [] none) optsBig 123))))
        (constClient (some { StatusCode := 201, Body := [] }, none)) (some optsBig)).outcome
      = .returned (some { Id := 123, Name := "foo", DisplayName := "foo",
                          Category := some [("id", .float64 9007199254740992)],
                          RadarOpts := none,
                          Description := "foo description", Enabled := false,
                          OpenMixEnabled := false, IsPrivate := false,
                          OpenmixVisible := false, PublicProviderArchetypeId := 0 },
                    none)
      ∧ (some [("id", GoValue.float64 9007199254740992)] : GoMap) ≠ optsBig.Category := by
  constructor
  · rfl
  · simp [optsBig]

/-- C8, amended: round trip for Create.  For every options value `o` whose
`Category` and `RadarOpts` hold only values of the dynamic types that
`encoding/json` decodes to (no `int`, no `[]string`, and `float64` numbers whose
written text reads back as the same number), and every identifier `n` (both
integers being Go `int` values): if the `post` is answered with status 201 and a
body that is a JSON object with exactly the members of `wireObject codec o n`, in
any order, then Create returns a nil error and the Platform whose `Id` is `n` and
whose other ten fields are those of `o`. -/
theorem create_round_trip (codec : JsonCodec) (c : Client) (o : PlatformOpts) (n : Int)
    (jsonOpts : Bytes) (resp : Response) (ms : List (String × Json))
    (hn : inIntRange n = true) (hid : inIntRange o.PublicProviderArchetypeId = true)
    (hcat : GoMap.jsonNative codec o.Category = true)
    (hrad : GoMap.jsonNative codec o.RadarOpts = true)
    (hm : codec.marshal (some o) = (jsonOpts, none))
    (hpost : c.post platformBasePath jsonOpts = (some resp, none))
    (hs : resp.StatusCode = 201)
    (hscan : codec.scan resp.Body = some (.obj ms))
    (hms : ms.Perm (wireObject codec o n)) :
    (platformServiceImpl.Create codec c (some o)).outcome
      = .returned (some { Id := n, Name := o.Name, DisplayName := o.DisplayName,
                          Category := o.Category, RadarOpts := o.RadarOpts,
                          Description := o.Description, Enabled := o.Enabled,
                          OpenMixEnabled := o.OpenMixEnabled, IsPrivate := o.IsPrivate,
                          OpenmixVisible := o.OpenmixVisible,
                          PublicProviderArchetypeId := o.PublicProviderArchetypeId },
                    none) := by
  have hdec : decodeObject codec ms Platform.zero = (platformOf o n, false) := by
    rw [← decodeObject_wireObject codec o n hn hid hcat hrad]
    unfold decodeObject
    exact (hms.symm.foldl_eq' (decodeMember_wire_comm codec o n) (Platform.zero, false)).symm
  simp [platformServiceImpl.Create, Client.callPost, hm, hpost, hs, unmarshalPlatform, hscan,
    decodePlatform, hdec, platformOf]

/-- Witness of the amended C8: the options of `TestPlatformCreate`, whose category
holds the `float64` 1 under `id`, and the identifier 123, the body listing the
members in reverse order. -/
theorem create_round_trip_witness :
    (platformServiceImpl.Create
        (constCodec [] (some (.obj (wireObject (constCodec [] none) optsFoo 123).reverse)))
        (constClient (some { StatusCode := 201, Body := [] }, none)) (some optsFoo)).outcome
      = .returned (some { Id := 123, Name := "foo", DisplayName := "foo",
                          Category := some [("id", .float64 1)],
                          RadarOpts := some [("usePublicData", .bool true)],
                          Description := "foo description", Enabled := false,
                          OpenMixEnabled := true, IsPrivate := false,
                          OpenmixVisible := false, PublicProviderArchetypeId := 0 },
                    none) :=
  create_round_trip
    (constCodec [] (some (.obj (wireObject (constCodec [] none) optsFoo 123).reverse)))
    (constClient (some { StatusCode := 201, Body := [] }, none)) optsFoo 123 []
    { StatusCode := 201, Body := [] } (wireObject (constCodec [] none) optsFoo 123).reverse
    (by decide) (by decide) (by decide) (by decide) rfl rfl rfl rfl (List.reverse_perm _)

/-! ## C9: wire names -/

/-- C9: the JSON keys of the two record types, computed from their struct tags.
`PlatformOpts` has the ten wire names of the table; `Platform` has `id` and the
same names except for `OpenMixEnabled`, whose tag has the key `bool` in place of
`json`, so that its JSON key is the Go field name and not `openmixEnabled`. -/
theorem platform_openMixEnabled_key :
    PlatformOptsField.all.map PlatformOptsField.jsonName
        = ["name", "displayName", "category", "radarConfig", "intendedUse", "enabled",
           "openmixEnabled", "privateArchetype", "openmixVisible",
           "publicProviderArchetypeId"]
      ∧ PlatformField.all.map PlatformField.jsonName
        = ["id", "name", "displayName", "category", "radarConfig", "intendedUse", "enabled",
           "OpenMixEnabled", "privateArchetype", "openmixVisible",
           "publicProviderArchetypeId"]
      ∧ PlatformField.OpenMixEnabled.jsonName ≠ "openmixEnabled" := by
  refine ⟨by decide, by decide, by decide⟩

/-! ## C10: paths -/

theorem getPlatformPath_eq (id : Int) :
    getPlatformPath id = "v2/config/platforms.json/" ++ toString id := by
  apply String.ext
  simp [getPlatformPath, sprintf, sprintfChars, platformBasePath]

/-- C10: `getPlatformPath id` is `v2/config/platforms.json/` followed by the
decimal form of `id`.  The requests that the transport client is handed are: by
Update one `put`, by Get one `get` and by Delete one `delete`, each with that path;
by Create one `post` and by List one `get`, each with `v2/config/platforms.json`
(for Create and Update once `json.Marshal` has succeeded, before which no call is
made).  And each method depends on the client through its answer to that verb at
that path only: two clients that agree there give the same run. -/
theorem paths_passed_to_transport (codec : JsonCodec) (c : Client) (id : Int)
    (opts : Option PlatformOpts) (tests : List platformListTestFunc) :
    getPlatformPath id = "v2/config/platforms.json/" ++ toString id
      ∧ (∀ jsonOpts, codec.marshal opts = (jsonOpts, none) →
        requests (platformServiceImpl.Update codec c id opts).events
          = [(Verb.PUT, "v2/config/platforms.json/" ++ toString id)])
      ∧ requests (platformServiceImpl.Get codec c id).events
        = [(Verb.GET, "v2/config/platforms.json/" ++ toString id)]
      ∧ requests (platformServiceImpl.Delete c id).events
        = [(Verb.DELETE, "v2/config/platforms.json/" ++ toString id)]
      ∧ (∀ jsonOpts, codec.marshal opts = (jsonOpts, none) →
        requests (platformServiceImpl.Create codec c opts).events
          = [(Verb.POST, "v2/config/platforms.json")])
      ∧ requests (platformServiceImpl.List codec c tests).events
        = [(Verb.GET, "v2/config/platforms.json")]
      ∧ (∀ c2 : Client,
        (∀ body, c2.put ("v2/config/platforms.json/" ++ toString id) body
          = c.put ("v2/config/platforms.json/" ++ toString id) body) →
        platformServiceImpl.Update codec c2 id opts = platformServiceImpl.Update codec c id opts)
      ∧ (∀ c2 : Client,
        c2.get ("v2/config/platforms.json/" ++ toString id)
          = c.get ("v2/config/platforms.json/" ++ toString id) →
        platformServiceImpl.Get codec c2 id = platformServiceImpl.Get codec c id)
      ∧ (∀ c2 : Client,
        c2.delete ("v2/config/platforms.json/" ++ toString id)
          = c.delete ("v2/config/platforms.json/" ++ toString id) →
        platformServiceImpl.Delete c2 id = platformServiceImpl.Delete c id)
      ∧ (∀ c2 : Client,
        (∀ body, c2.post "v2/config/platforms.json" body
          = c.post "v2/config/platforms.json" body) →
        platformServiceImpl.Create codec c2 opts = platformServiceImpl.Create codec c opts)
      ∧ (∀ c2 : Client,
        c2.get "v2/config/platforms.json" = c.get "v2/config/platforms.json" →
        platformServiceImpl.List codec c2 tests = platformServiceImpl.List codec c tests) := by
  have hbase : platformBasePath = "v2/config/platforms.json" := rfl
  refine ⟨getPlatformPath_eq id, ?_, ?_, ?_, ?_, ?_, ?_, ?_, ?_, ?_, ?_⟩
  · intro jsonOpts hm
    rw [← getPlatformPath_eq]
    simp only [platformServiceImpl.Update, Client.callPut, hm]
    rcases hput : c.put (getPlatformPath id) jsonOpts with ⟨_ | resp, _ | err⟩
    · simp [requests]
    · simp [requests]
    · by_cases hs : (200 : Int) = resp.StatusCode <;> simp [requests, hs]
    · simp [requests]
  · rw [← getPlatformPath_eq]
    simp only [platformServiceImpl.Get, Client.callGet]
    rcases hget : c.get (getPlatformPath id) with ⟨_ | resp, _ | err⟩
    · simp [requests]
    · simp [requests]
    · by_cases hs : (200 : Int) = resp.StatusCode <;> simp [requests, hs]
    · simp [requests]
  · rw [← getPlatformPath_eq]
    simp only [platformServiceImpl.Delete, Client.callDelete]
    rcases hdel : c.delete (getPlatformPath id) with ⟨_ | resp, err⟩
    · simp [requests]
    · by_cases hs : (204 : Int) = resp.StatusCode <;> simp [requests, hs]
  · intro jsonOpts hm
    simp only [platformServiceImpl.Create, Client.callPost, hm]
    rcases hpost : c.post platformBasePath jsonOpts with ⟨_ | resp, _ | err⟩
    · simp [requests, hbase]
    · simp [requests, hbase]
    · by_cases hs : (201 : Int) = resp.StatusCode <;> simp [requests, hs, hbase]
    · simp [requests, hbase]
  · simp only [platformServiceImpl.List, Client.callGet]
    rcases hget : c.get platformBasePath with ⟨_ | resp, _ | err⟩ <;>
      simp [requests, hbase]
  · intro c2 h
    rw [← getPlatformPath_eq] at h
    simp only [platformServiceImpl.Update, Client.callPut, h]
  · intro c2 h
    rw [← getPlatformPath_eq] at h
    simp only [platformServiceImpl.Get, Client.callGet, h]
  · intro c2 h
    rw [← getPlatformPath_eq] at h
    simp only [platformServiceImpl.Delete, Client.callDelete, h]
  · intro c2 h
    rw [← hbase] at h
    simp only [platformServiceImpl.Create, Client.callPost, h]
  · intro c2 h
    rw [← hbase] at h
    simp only [platformServiceImpl.List, Client.callGet, h]

/-- Witness of C10: the identifier 123 of the tests, on a transport that fails
every call. -/
theorem paths_passed_to_transport_witness :
    getPlatformPath 123 = "v2/config/platforms.json/123"
      ∧ requests (platformServiceImpl.Update (constCodec [] none)
          (constClient failFoo) 123 none).events
        = [(Verb.PUT, "v2/config/platforms.json/123")]
      ∧ requests (platformServiceImpl.Get (constCodec [] none)
          (constClient failFoo) 123).events
        = [(Verb.GET, "v2/config/platforms.json/123")]
      ∧ requests (platformServiceImpl.Delete (constClient failFoo) 123).events
        = [(Verb.DELETE, "v2/config/platforms.json/123")]
      ∧ requests (platformServiceImpl.Create (constCodec [] none)
          (constClient failFoo) none).events
        = [(Verb.POST, "v2/config/platforms.json")]
      ∧ requests (platformServiceImpl.List (constCodec [] none)
          (constClient failFoo) []).events
        = [(Verb.GET, "v2/config/platforms.json")] :=
  have h := paths_passed_to_transport (constCodec [] none) (constClient failFoo) 123 none []
  ⟨h.1, h.2.1 [] rfl, h.2.2.1, h.2.2.2.1, h.2.2.2.2.1 [] rfl, h.2.2.2.2.2.1⟩

/-! ## C11: decode errors -/

/-- C11: decode errors are swallowed.  Create, Update and Get, each on its own:
when the response to the call of the method has the expected status code and
`json.Unmarshal` of its body into a Platform fails, the method returns a nil error
together with a non-nil Platform, namely whatever the failed decoding left in the
zero Platform.  And List: when its call is answered with a response and
`json.Unmarshal` of the body into a list of Platform fails, it returns a nil error,
with the tests run on whatever list the failed decoding left. -/
theorem decode_errors_swallowed (codec : JsonCodec) (c : Client) (id : Int)
    (opts : Option PlatformOpts) (tests : List platformListTestFunc) :
    (∀ jsonOpts resp, codec.marshal opts = (jsonOpts, none) →
      c.post platformBasePath jsonOpts = (some resp, none) →
      resp.StatusCode = 201 →
      (unmarshalPlatform codec resp.Body Platform.zero).2 = true →
      (platformServiceImpl.Create codec c opts).outcome
        = .returned (some (unmarshalPlatform codec resp.Body Platform.zero).1, none))
    ∧ (∀ jsonOpts resp, codec.marshal opts = (jsonOpts, none) →
      c.put (getPlatformPath id) jsonOpts = (some resp, none) →
      resp.StatusCode = 200 →
      (unmarshalPlatform codec resp.Body Platform.zero).2 = true →
      (platformServiceImpl.Update codec c id opts).outcome
        = .returned (some (unmarshalPlatform codec resp.Body Platform.zero).1, none))
    ∧ (∀ resp, c.get (getPlatformPath id) = (some resp, none) →
      resp.StatusCode = 200 →
      (unmarshalPlatform codec resp.Body Platform.zero).2 = true →
      (platformServiceImpl.Get codec c id).outcome
        = .returned (some (unmarshalPlatform codec resp.Body Platform.zero).1, none))
    ∧ (∀ resp, c.get platformBasePath = (some resp, none) →
      (unmarshalPlatforms codec resp.Body).2 = true →
      (platformServiceImpl.List codec c tests).outcome
        = .returned (listLoop tests (unmarshalPlatforms codec resp.Body).1 [], none)) := by
  refine ⟨?_, ?_, ?_, ?_⟩
  · intro jsonOpts resp hm hpost hs _
    simp [platformServiceImpl.Create, Client.callPost, hm, hpost, hs]
  · intro jsonOpts resp hm hput hs _
    simp [platformServiceImpl.Update, Client.callPut, hm, hput, hs]
  · intro resp hget hs _
    simp [platformServiceImpl.Get, Client.callGet, hget, hs]
  · intro resp hlist _
    simp [platformServiceImpl.List, Client.callGet, hlist]

/-- Witness of C11: a codec that reads the body `[1]` as an object whose `id` is a
string, which decodes neither as a Platform nor as a list without error, and the
body `[2]` as the array of the two Platforms of the tests.  In each of four clients
one call is answered with the body `[1]` and every other call with the body `[2]`;
Create, Update and Get return a nil error with the Platform that has the name `foo`
and the identifier 0, and List returns a nil error with no Platform. -/
theorem decode_errors_swallowed_witness :
    (platformServiceImpl.Create (tableCodec [] [([1], badIdJson), ([2], fooBarJson)])
        (verbClient ok200 ok200 (some { StatusCode := 201, Body := [1] }, none) ok200 ok200)
        none).outcome
        = .returned (some { Platform.zero with Name := "foo" }, none)
      ∧ (platformServiceImpl.Update (tableCodec [] [([1], badIdJson), ([2], fooBarJson)])
        (verbClient ok200 ok200 ok200 (some { StatusCode := 200, Body := [1] }, none) ok200)
        123 none).outcome
        = .returned (some { Platform.zero with Name := "foo" }, none)
      ∧ (platformServiceImpl.Get (tableCodec [] [([1], badIdJson), ([2], fooBarJson)])
        (verbClient ok200 (some { StatusCode := 200, Body := [1] }, none) ok200 ok200 ok200)
        123).outcome
        = .returned (some { Platform.zero with Name := "foo" }, none)
      ∧ (platformServiceImpl.List (tableCodec [] [([1], badIdJson), ([2], fooBarJson)])
        (verbClient (some { StatusCode := 200, Body := [1] }, none) ok200 ok200 ok200 ok200)
        []).outcome
        = .returned ([], none) :=
  ⟨(decode_errors_swallowed (tableCodec [] [([1], badIdJson), ([2], fooBarJson)])
      (verbClient ok200 ok200 (some { StatusCode := 201, Body := [1] }, none) ok200 ok200)
      123 none []).1 [] { StatusCode := 201, Body := [1] } rfl rfl rfl rfl,
    (decode_errors_swallowed (tableCodec [] [([1], badIdJson), ([2], fooBarJson)])
      (verbClient ok200 ok200 ok200 (some { StatusCode := 200, Body := [1] }, none) ok200)
      123 none []).2.1 [] { StatusCode := 200, Body := [1] } rfl rfl rfl rfl,
    (decode_errors_swallowed (tableCodec [] [([1], badIdJson), ([2], fooBarJson)])
      (verbClient ok200 (some { StatusCode := 200, Body := [1] }, none) ok200 ok200 ok200)
      123 none []).2.2.1 { StatusCode := 200, Body := [1] } (by decide) rfl rfl,
    (decode_errors_swallowed (tableCodec [] [([1], badIdJson), ([2], fooBarJson)])
      (verbClient (some { StatusCode := 200, Body := [1] }, none) ok200 ok200 ok200 ok200)
      123 none []).2.2.2 { StatusCode := 200, Body := [1] } rfl rfl⟩

end Itm
